import Mathlib

set_option linter.unusedVariables false

/-!
Shallow embedding of the task-orchestration core of the repository:
the Task document model and its validation (`app/database/models/task.py`),
the persistence behaviour of `BaseDocument.save` (`app/database/base.py`),
the `TaskService` operations (`app/services/task_service.py`), and the
session-dashboard status derivation (`app/services/status_service.py`).

Statuses and task types are the source's strings.  Timestamps are abstract
`Nat` instants supplied by the caller (the source calls `datetime.utcnow()`).
The document store maps a document id to a `Task`; the audit-log collection
is a list of `TaskStatusLog` records.  Whether an audit append succeeds is an
explicit `auditOk` oracle argument: in the source, a failing or raising log
save inside `_log_status_change` is caught and only written to the logger,
leaving the store unchanged and the caller unaffected.
-/

namespace App

/-- The status strings of class `TaskStatus` in `app/database/models/task.py`:
pending, in_progress, completed, failed, cancelled, stale.  The class has no
`waiting_user` member. -/
def validStatuses : List String :=
  ["pending", "in_progress", "completed", "failed", "cancelled", "stale"]

/-- The task-type strings of class `TaskType` in `app/database/models/task.py`. -/
def validTaskTypes : List String :=
  ["research", "data_collection", "analysis", "report"]

/-- The status strings accepted by the `PUT /tasks/<task_id>/update` endpoint
(`app/api/tasks.py`, `valid_statuses`): the six model statuses plus
`waiting_user`. -/
def apiValidStatuses : List String :=
  ["pending", "in_progress", "completed", "failed", "waiting_user", "cancelled", "stale"]

/-- The `Task` document (`app/database/models/task.py`, `Task.__init__`).
Field defaults mirror the Python keyword defaults: `error_message` and
`current_step` default to the empty string, `result_data` to the empty
payload (modelled as `none`), `retry_count` to 0 and `max_retries` to 3.
`error_message : Option String` distinguishes Python `None` (`none`) from a
string value (`some s`). -/
structure Task where
  tid : Nat := 0
  session_id : Option Nat := none
  task_type : String := "research"
  title : String := ""
  description : Option String := some ""
  status : String := "pending"
  progress : Int := 0
  current_step : String := ""
  error_message : Option String := some ""
  result_data : Option String := none
  depends_on : List Nat := []
  retry_count : Nat := 0
  max_retries : Nat := 3
  started_at : Option Nat := none
  completed_at : Option Nat := none
  created_at : Nat := 0
  updated_at : Nat := 0
deriving Repr, DecidableEq

/-- One record of the `task_status_logs` collection
(`app/database/models/task_status_log.py`). -/
structure LogEntry where
  task_id : Nat
  old_status : Option String
  new_status : String
  changed_by : String
  change_reason : Option String
  timestamp : Nat
deriving Repr, DecidableEq

/-- The persistent state seen by the service layer: the `tasks` collection
keyed by document id, and the `task_status_logs` collection. -/
structure DB where
  tasks : Nat → Option Task
  logs : List LogEntry

/-- `Task.validate` (`app/database/models/task.py`): returns the message of
the `ValueError` it raises, or `none` when the document is valid.  The
checks run in source order: session id truthy, stripped title non-empty,
task type in `TaskType`, status in `TaskStatus`, `0 <= progress <= 100`. -/
def Task.validate (t : Task) : Option String :=
  if t.session_id.isNone then some "Session ID is required"
  else if t.title.data.all Char.isWhitespace then some "Task title is required"
  else if t.task_type ∉ validTaskTypes then some "Invalid task type"
  else if t.status ∉ validStatuses then some "Invalid task status"
  else if ¬ (0 ≤ t.progress ∧ t.progress ≤ 100) then
    some "Progress must be between 0 and 100"
  else none

/-- Write a task into the store under its own id (`replace_one` /
`insert_one` in `BaseDocument.save`). -/
def DB.put (db : DB) (t : Task) : DB :=
  { db with tasks := fun i => if i = t.tid then some t else db.tasks i }

/-- Outcome of `BaseDocument.save` on a document that already has an id:
`saved` (returns True), `noMatch` (`replace_one` matched nothing, returns
False), or `raised msg` (validation raised `ValueError(msg)`). -/
inductive SaveRes
  | saved (db : DB) (t : Task)
  | noMatch (t : Task)
  | raised (msg : String)

/-- `BaseDocument.save` (`app/database/base.py`) for a document with an id:
validate (raising on failure), stamp `updated_at`, then replace the stored
document.  The replace matches exactly when a document with this id exists. -/
def DB.saveExisting (db : DB) (t : Task) (now : Nat) : SaveRes :=
  match t.validate with
  | some m => .raised m
  | none =>
    let t' := { t with updated_at := now }
    if (db.tasks t.tid).isSome then .saved (db.put t') t' else .noMatch t'

/-- `TaskService._log_status_change`: append one `TaskStatusLog` record.
When the log save fails or raises (`auditOk = false`), the error is written
to the logger and swallowed: the store is unchanged and the caller never
sees a failure. -/
def logStatusChange (db : DB) (auditOk : Bool) (task_id : Nat)
    (old_status : Option String) (new_status changed_by : String)
    (reason : Option String) (ts : Nat) : DB :=
  if auditOk then
    { db with
      logs := db.logs ++ [{ task_id := task_id, old_status := old_status,
                            new_status := new_status, changed_by := changed_by,
                            change_reason := reason, timestamp := ts }] }
  else db

/-- Result of a `TaskService` operation: `Except.error msg` models a raised
`ValueError(msg)`; `Except.ok none` models the service returning `None`
(task save returned False); `Except.ok (some (db, t))` is success with the
new store state and the returned task. -/
abbrev OpRes := Except String (Option (DB × Task))

/-- The returned task of a successful operation. -/
def opTask : OpRes → Option Task
  | .ok (some (_, t)) => some t
  | _ => none

/-- The store state after a successful operation. -/
def opDB : OpRes → Option DB
  | .ok (some (d, _)) => some d
  | _ => none

/-- The `ValueError` message, when the operation raised one. -/
def opError : OpRes → Option String
  | .error m => some m
  | _ => none

/-- The audit-log collection after a successful operation. -/
def opLogs : OpRes → Option (List LogEntry)
  | .ok (some (d, _)) => some d.logs
  | _ => none

/-- Python truthiness of an optional string: `None` and the empty string are
falsy. -/
def strTruthy : Option String → Bool
  | none => false
  | some s => s != ""

/-- `update_task_status` line `if progress is not None: task.progress =
float(progress)` — a supplied progress is applied even when it is 0. -/
def applyProgress (t : Task) : Option Int → Task
  | some p => { t with progress := p }
  | none => t

/-- `update_task_status` line `if current_step: task.current_step =
current_step` — applied only when truthy. -/
def applyStep (t : Task) (current_step : Option String) : Task :=
  if strTruthy current_step then { t with current_step := current_step.getD "" }
  else t

/-- `update_task_status` line `if error_message: task.error_message =
error_message` — applied only when truthy. -/
def applyErrMsg (t : Task) (error_message : Option String) : Task :=
  if strTruthy error_message then { t with error_message := error_message }
  else t

/-- `update_task_status` entry side effects: on `in_progress` set
`started_at` if unset; else, on `completed`, set `completed_at` and force
`progress` to 100. -/
def applyEntry (t : Task) (new_status : String) (now : Nat) : Task :=
  if (new_status == "in_progress") && t.started_at.isNone then
    { t with started_at := some now }
  else if new_status = "completed" then
    { t with completed_at := some now, progress := 100 }
  else t

/-- The in-memory field updates performed by `TaskService.update_task_status`
before saving, in source order: set `status` and `updated_at`, apply a
non-`None` `progress`, apply truthy `current_step` and `error_message`, then
the entry side effects for the target status. -/
def updatedTask (task : Task) (new_status : String) (progress : Option Int)
    (current_step error_message : Option String) (now : Nat) : Task :=
  applyEntry
    (applyErrMsg
      (applyStep
        (applyProgress { task with status := new_status, updated_at := now } progress)
        current_step)
      error_message)
    new_status now

/-- `TaskService.update_task_status`.  No transition-table check appears in
the source: the looked-up task's current status is read only to record the
audit `old_status`.  A failed audit write is swallowed.  The subsequent
`_check_dependent_tasks` call on completion is read-only (it only logs) and
is therefore not modelled as a state change. -/
def update_task_status (db : DB) (auditOk : Bool) (now : Nat) (task_id : Nat)
    (new_status : String) (progress : Option Int) (current_step : Option String)
    (error_message : Option String) : OpRes :=
  match db.tasks task_id with
  | none => .error ("Task " ++ toString task_id ++ " not found")
  | some task =>
    let old_status := task.status
    let t5 := updatedTask task new_status progress current_step error_message now
    match db.saveExisting t5 now with
    | .raised m => .error m
    | .noMatch _ => .ok none
    | .saved db' t' =>
      .ok (some (logStatusChange db' auditOk task_id (some old_status)
        new_status "system" none now, t'))

/-- The in-memory mutations of `TaskService.complete_task` before saving:
set `status`, `completed_at` and `result_data`.  The source additionally
sets `task.progress_percentage = 100`, a stray attribute that is not the
persisted `progress` field, so the stored `progress` is unchanged; and it
does not touch `updated_at` (only the save stamps it). -/
def completedDoc (task : Task) (result_data : String) (now : Nat) : Task :=
  { task with
    status := "completed", completed_at := some now,
    result_data := some result_data }

/-- `TaskService.complete_task`.  It ignores the save's return value, and it
logs the audit entry with `task.status` as `old_status` after `task.status`
has already been overwritten to `completed`. -/
def complete_task (db : DB) (auditOk : Bool) (now : Nat) (task_id : Nat)
    (result_data : String) : OpRes :=
  match db.tasks task_id with
  | none => .error ("Task " ++ toString task_id ++ " not found")
  | some task =>
    let t1 := completedDoc task result_data now
    match db.saveExisting t1 now with
    | .raised m => .error m
    | .noMatch t' =>
      .ok (some (logStatusChange db auditOk task_id (some t'.status)
        "completed" "system" none now, t'))
    | .saved db' t' =>
      .ok (some (logStatusChange db' auditOk task_id (some t'.status)
        "completed" "system" none now, t'))

/-- The in-memory mutations of `TaskService.fail_task` before saving: set
`status` to failed, `error_message` to the given string (no emptiness
check), and `updated_at`. -/
def failedDoc (task : Task) (error_message : String) (now : Nat) : Task :=
  { task with
    status := "failed", error_message := some error_message,
    updated_at := now }

/-- `TaskService.fail_task`: mutate, save, then log with the error message
as the audit reason. -/
def fail_task (db : DB) (auditOk : Bool) (now : Nat) (task_id : Nat)
    (error_message : String) : OpRes :=
  match db.tasks task_id with
  | none => .error ("Task " ++ toString task_id ++ " not found")
  | some task =>
    let old_status := task.status
    let t1 := failedDoc task error_message now
    match db.saveExisting t1 now with
    | .raised m => .error m
    | .noMatch _ => .ok none
    | .saved db' t' =>
      .ok (some (logStatusChange db' auditOk task_id (some old_status)
        "failed" "system" (some error_message) now, t'))

/-- The in-memory mutations of `TaskService.retry_task` on success:
increment `retry_count`, transition to pending, clear `error_message`,
reset `progress` to 0, set the queued-for-retry marker, stamp
`updated_at`. -/
def retriedDoc (task : Task) (now : Nat) : Task :=
  { task with
    retry_count := task.retry_count + 1, status := "pending",
    error_message := none, progress := 0,
    current_step := "Task queued for retry", updated_at := now }

/-- `TaskService.retry_task`: guarded by the three `ValueError` preconditions
in source order, then increments `retry_count`, resets the failure state,
transitions to pending and logs with reason `Retry attempt N of M`. -/
def retry_task (db : DB) (auditOk : Bool) (now : Nat) (task_id : Nat) : OpRes :=
  match db.tasks task_id with
  | none => .error ("Task " ++ toString task_id ++ " not found")
  | some task =>
    if task.status ≠ "failed" then .error "Only failed tasks can be retried"
    else if task.retry_count ≥ task.max_retries then
      .error "Maximum retry attempts exceeded"
    else
      let old_status := task.status
      let n := task.retry_count + 1
      let t1 := retriedDoc task now
      match db.saveExisting t1 now with
      | .raised m => .error m
      | .noMatch _ => .ok none
      | .saved db' t' =>
        .ok (some (logStatusChange db' auditOk task_id (some old_status)
          "pending" "system"
          (some ("Retry attempt " ++ toString n ++ " of " ++ toString task.max_retries))
          now, t'))

/-- The in-memory mutations of `TaskService.cancel_task` on success: set
`status` to cancelled, the cancellation marker, and `updated_at`. -/
def cancelledDoc (task : Task) (now : Nat) : Task :=
  { task with
    status := "cancelled",
    current_step := "Task cancelled by user", updated_at := now }

/-- `TaskService.cancel_task`: allowed only from pending or in_progress,
then sets the cancellation marker and logs. -/
def cancel_task (db : DB) (auditOk : Bool) (now : Nat) (task_id : Nat) : OpRes :=
  match db.tasks task_id with
  | none => .error ("Task " ++ toString task_id ++ " not found")
  | some task =>
    if ¬ (task.status = "pending" ∨ task.status = "in_progress") then
      .error "Only pending or in-progress tasks can be cancelled"
    else
      let old_status := task.status
      let t1 := cancelledDoc task now
      match db.saveExisting t1 now with
      | .raised m => .error m
      | .noMatch _ => .ok none
      | .saved db' t' =>
        .ok (some (logStatusChange db' auditOk task_id (some old_status)
          "cancelled" "system" (some "Task cancelled by user") now, t'))

/-- `TaskService.create_task`: build a pending task (insert assigns the fresh
id `newId`), save (insert always succeeds once validation passes), and log
the creation with `old_status = None`. -/
def create_task (db : DB) (auditOk : Bool) (now newId : Nat)
    (session_id : Option Nat) (task_type title : String)
    (description : Option String) (depends_on : List Nat) : OpRes :=
  let t : Task :=
    { tid := newId, session_id := session_id, task_type := task_type,
      title := title, description := description, depends_on := depends_on,
      status := "pending", created_at := now, updated_at := now }
  match t.validate with
  | some m => .error m
  | none =>
    let t' := { t with updated_at := now }
    let db' := db.put t'
    .ok (some (logStatusChange db' auditOk newId none "pending" "system"
      (some "Task created") now, t'))

/-- `TaskService._dependencies_satisfied`: an empty `depends_on` is
satisfied; otherwise every predecessor must be found in the store and have
status completed; a missing predecessor yields False. -/
def dependencies_satisfied (db : DB) (t : Task) : Bool :=
  t.depends_on.all fun dep =>
    match db.tasks dep with
    | some d => d.status == "completed"
    | none => false

/-- The overall-status derivation of `StatusService.get_session_dashboard`
composed with `StatusService._calculate_overall_status`: bucket the session's
tasks by status (the `waiting_system` bucket holds the in_progress tasks) and
test the buckets for non-emptiness in precedence order. -/
def calculate_overall_status (tasks : List Task) : String :=
  let failedList := tasks.filter fun t => t.status == "failed"
  let waitingUserList := tasks.filter fun t => t.status == "waiting_user"
  let waitingSystemList := tasks.filter fun t => t.status == "in_progress"
  let pendingList := tasks.filter fun t => t.status == "pending"
  if ¬ failedList.isEmpty then "has_failures"
  else if ¬ waitingUserList.isEmpty then "waiting_user"
  else if ¬ waitingSystemList.isEmpty then "in_progress"
  else if ¬ pendingList.isEmpty then "pending"
  else "completed"

/-- Modelled from the spec: the §4.6 precedence for the session dashboard's
overall status, written from the spec's words — any failed task gives
has_failures; else any waiting_user gives waiting_user; else any in_progress
gives in_progress; else any pending gives pending; else completed. -/
def spec_overall_status (tasks : List Task) : String :=
  if tasks.any (fun t => t.status == "failed") then "has_failures"
  else if tasks.any (fun t => t.status == "waiting_user") then "waiting_user"
  else if tasks.any (fun t => t.status == "in_progress") then "in_progress"
  else if tasks.any (fun t => t.status == "pending") then "pending"
  else "completed"

/-! Field-level description of the update performed by
`update_task_status` before saving. -/

theorem updatedTask_status (task : Task) (st : String) (p : Option Int)
    (cs em : Option String) (now : Nat) :
    (updatedTask task st p cs em now).status = st := by
  unfold updatedTask applyEntry applyErrMsg applyStep applyProgress
  cases p <;> split_ifs <;> rfl

theorem updatedTask_updated_at (task : Task) (st : String) (p : Option Int)
    (cs em : Option String) (now : Nat) :
    (updatedTask task st p cs em now).updated_at = now := by
  unfold updatedTask applyEntry applyErrMsg applyStep applyProgress
  cases p <;> split_ifs <;> rfl

theorem updatedTask_tid (task : Task) (st : String) (p : Option Int)
    (cs em : Option String) (now : Nat) :
    (updatedTask task st p cs em now).tid = task.tid := by
  unfold updatedTask applyEntry applyErrMsg applyStep applyProgress
  cases p <;> split_ifs <;> rfl

theorem updatedTask_session_id (task : Task) (st : String) (p : Option Int)
    (cs em : Option String) (now : Nat) :
    (updatedTask task st p cs em now).session_id = task.session_id := by
  unfold updatedTask applyEntry applyErrMsg applyStep applyProgress
  cases p <;> split_ifs <;> rfl

theorem updatedTask_title (task : Task) (st : String) (p : Option Int)
    (cs em : Option String) (now : Nat) :
    (updatedTask task st p cs em now).title = task.title := by
  unfold updatedTask applyEntry applyErrMsg applyStep applyProgress
  cases p <;> split_ifs <;> rfl

theorem updatedTask_task_type (task : Task) (st : String) (p : Option Int)
    (cs em : Option String) (now : Nat) :
    (updatedTask task st p cs em now).task_type = task.task_type := by
  unfold updatedTask applyEntry applyErrMsg applyStep applyProgress
  cases p <;> split_ifs <;> rfl

theorem updatedTask_retry_count (task : Task) (st : String) (p : Option Int)
    (cs em : Option String) (now : Nat) :
    (updatedTask task st p cs em now).retry_count = task.retry_count := by
  unfold updatedTask applyEntry applyErrMsg applyStep applyProgress
  cases p <;> split_ifs <;> rfl

theorem updatedTask_progress (task : Task) (st : String) (p : Option Int)
    (cs em : Option String) (now : Nat) :
    (updatedTask task st p cs em now).progress =
      if st = "completed" then 100 else p.getD task.progress := by
  unfold updatedTask applyEntry applyErrMsg applyStep applyProgress
  cases p <;> split_ifs <;> simp_all

theorem updatedTask_current_step (task : Task) (st : String) (p : Option Int)
    (cs em : Option String) (now : Nat) :
    (updatedTask task st p cs em now).current_step =
      if strTruthy cs then cs.getD "" else task.current_step := by
  unfold updatedTask applyEntry applyErrMsg applyStep applyProgress
  cases p <;> split_ifs <;> simp_all

theorem updatedTask_error_message (task : Task) (st : String) (p : Option Int)
    (cs em : Option String) (now : Nat) :
    (updatedTask task st p cs em now).error_message =
      if strTruthy em then em else task.error_message := by
  unfold updatedTask applyEntry applyErrMsg applyStep applyProgress
  cases p <;> split_ifs <;> simp_all

theorem updatedTask_completed_at (task : Task) (st : String) (p : Option Int)
    (cs em : Option String) (now : Nat) :
    (updatedTask task st p cs em now).completed_at =
      if st = "completed" then some now else task.completed_at := by
  unfold updatedTask applyEntry applyErrMsg applyStep applyProgress
  cases p <;> split_ifs <;> simp_all

theorem updatedTask_started_at (task : Task) (st : String) (p : Option Int)
    (cs em : Option String) (now : Nat) :
    (updatedTask task st p cs em now).started_at =
      if st = "in_progress" ∧ task.started_at = none then some now
      else task.started_at := by
  unfold updatedTask applyEntry applyErrMsg applyStep applyProgress
  cases p <;> split_ifs <;> simp_all [Option.isNone_iff_eq_none]

/-! Validation and save lemmas. -/

theorem validate_none_of (t : Task) (h1 : t.session_id.isSome)
    (h2 : t.title.data.all Char.isWhitespace = false)
    (h3 : t.task_type ∈ validTaskTypes) (h4 : t.status ∈ validStatuses)
    (h5 : 0 ≤ t.progress) (h6 : t.progress ≤ 100) : t.validate = none := by
  unfold Task.validate
  split_ifs with g1 g2 g3
  · rw [Option.isNone_iff_eq_none] at g1
    simp [g1] at h1
  · simp [g2] at h2
  all_goals first
    | rfl
    | exact absurd ⟨h5, h6⟩ g3

theorem validate_none_progress (t : Task) (h : t.validate = none) :
    0 ≤ t.progress ∧ t.progress ≤ 100 := by
  unfold Task.validate at h
  split_ifs at h with g1 g2 g3 g4 g5
  any_goals cases h
  exact g5

theorem set_updated_at_self (t : Task) (now : Nat) (h : t.updated_at = now) :
    ({ t with updated_at := now } : Task) = t := by
  cases t
  simp_all

theorem saveExisting_eq_of (db : DB) (t : Task) (now : Nat)
    (hv : t.validate = none) (hex : (db.tasks t.tid).isSome) :
    db.saveExisting t now =
      .saved (db.put { t with updated_at := now }) { t with updated_at := now } := by
  unfold DB.saveExisting
  rw [hv]
  simp [hex]

theorem saveExisting_saved_inv (db : DB) (t : Task) (now : Nat) (db' : DB) (t' : Task)
    (h : db.saveExisting t now = .saved db' t') :
    t.validate = none ∧ t' = { t with updated_at := now } ∧
      db' = db.put { t with updated_at := now } := by
  unfold DB.saveExisting at h
  cases hv : t.validate with
  | some m => rw [hv] at h; cases h
  | none =>
    rw [hv] at h
    by_cases hex : (db.tasks t.tid).isSome
    · simp only [hex, if_true] at h
      cases h
      exact ⟨rfl, rfl, rfl⟩
    · simp only [hex, Bool.false_eq_true, if_false] at h
      cases h

/-! Success-shape lemmas for the service operations. -/

theorem update_eq_ok (db : DB) (a : Bool) (now task_id : Nat) (task : Task)
    (st : String) (p : Option Int) (cs em : Option String)
    (hfind : db.tasks task_id = some task) (htid : task.tid = task_id)
    (hv : (updatedTask task st p cs em now).validate = none) :
    update_task_status db a now task_id st p cs em =
      .ok (some (logStatusChange (db.put (updatedTask task st p cs em now)) a task_id
        (some task.status) st "system" none now,
        updatedTask task st p cs em now)) := by
  have hex : (db.tasks (updatedTask task st p cs em now).tid).isSome := by
    rw [updatedTask_tid, htid, hfind]; rfl
  have hsave := saveExisting_eq_of db (updatedTask task st p cs em now) now hv hex
  rw [set_updated_at_self _ _ (updatedTask_updated_at task st p cs em now)] at hsave
  unfold update_task_status
  rw [hfind]
  simp only [hsave]

theorem fail_eq_ok (db : DB) (a : Bool) (now task_id : Nat) (task : Task)
    (em : String)
    (hfind : db.tasks task_id = some task) (htid : task.tid = task_id)
    (hv : (failedDoc task em now).validate = none) :
    fail_task db a now task_id em =
      .ok (some (logStatusChange (db.put (failedDoc task em now)) a task_id
        (some task.status) "failed" "system" (some em) now,
        failedDoc task em now)) := by
  have hex : (db.tasks (failedDoc task em now).tid).isSome := by
    show (db.tasks task.tid).isSome
    rw [htid, hfind]; rfl
  have hsave := saveExisting_eq_of db (failedDoc task em now) now hv hex
  have hself : ({ failedDoc task em now with updated_at := now } : Task)
      = failedDoc task em now := set_updated_at_self _ _ rfl
  rw [hself] at hsave
  unfold fail_task
  rw [hfind]
  simp only [hsave]

theorem retry_eq_ok (db : DB) (a : Bool) (now task_id : Nat) (task : Task)
    (hfind : db.tasks task_id = some task) (htid : task.tid = task_id)
    (hst : task.status = "failed") (hcount : task.retry_count < task.max_retries)
    (hv : (retriedDoc task now).validate = none) :
    retry_task db a now task_id =
      .ok (some (logStatusChange (db.put (retriedDoc task now)) a task_id
        (some task.status) "pending" "system"
        (some ("Retry attempt " ++ toString (task.retry_count + 1) ++ " of "
          ++ toString task.max_retries)) now,
        retriedDoc task now)) := by
  have hex : (db.tasks (retriedDoc task now).tid).isSome := by
    show (db.tasks task.tid).isSome
    rw [htid, hfind]; rfl
  have hsave := saveExisting_eq_of db (retriedDoc task now) now hv hex
  have hself : ({ retriedDoc task now with updated_at := now } : Task)
      = retriedDoc task now := set_updated_at_self _ _ rfl
  rw [hself] at hsave
  unfold retry_task
  rw [hfind]
  simp only [hst, hsave, if_neg (Nat.not_le.mpr hcount)]
  simp

theorem cancel_eq_ok (db : DB) (a : Bool) (now task_id : Nat) (task : Task)
    (hfind : db.tasks task_id = some task) (htid : task.tid = task_id)
    (hst : task.status = "pending" ∨ task.status = "in_progress")
    (hv : (cancelledDoc task now).validate = none) :
    cancel_task db a now task_id =
      .ok (some (logStatusChange (db.put (cancelledDoc task now)) a task_id
        (some task.status) "cancelled" "system" (some "Task cancelled by user") now,
        cancelledDoc task now)) := by
  have hex : (db.tasks (cancelledDoc task now).tid).isSome := by
    show (db.tasks task.tid).isSome
    rw [htid, hfind]; rfl
  have hsave := saveExisting_eq_of db (cancelledDoc task now) now hv hex
  have hself : ({ cancelledDoc task now with updated_at := now } : Task)
      = cancelledDoc task now := set_updated_at_self _ _ rfl
  rw [hself] at hsave
  unfold cancel_task
  rw [hfind]
  simp only [hsave, if_neg (not_not_intro hst)]

theorem complete_eq_ok (db : DB) (a : Bool) (now task_id : Nat) (task : Task)
    (rd : String)
    (hfind : db.tasks task_id = some task) (htid : task.tid = task_id)
    (hv : (completedDoc task rd now).validate = none) :
    complete_task db a now task_id rd =
      .ok (some (logStatusChange (db.put { completedDoc task rd now with updated_at := now })
        a task_id (some "completed") "completed" "system" none now,
        { completedDoc task rd now with updated_at := now })) := by
  have hex : (db.tasks (completedDoc task rd now).tid).isSome := by
    show (db.tasks task.tid).isSome
    rw [htid, hfind]; rfl
  have hsave := saveExisting_eq_of db (completedDoc task rd now) now hv hex
  unfold complete_task
  rw [hfind]
  simp only [hsave]
  rfl

/-! Facts about the audit-log helper and the store writer. -/

theorem logStatusChange_logs (db : DB) (a : Bool) (task_id : Nat)
    (old_status : Option String) (new_status changed_by : String)
    (reason : Option String) (ts : Nat) :
    (logStatusChange db a task_id old_status new_status changed_by reason ts).logs =
      if a then
        db.logs ++ [{ task_id := task_id, old_status := old_status,
                      new_status := new_status, changed_by := changed_by,
                      change_reason := reason, timestamp := ts }]
      else db.logs := by
  unfold logStatusChange
  split_ifs <;> rfl

theorem logStatusChange_tasks (db : DB) (a : Bool) (task_id : Nat)
    (old_status : Option String) (new_status changed_by : String)
    (reason : Option String) (ts : Nat) :
    (logStatusChange db a task_id old_status new_status changed_by reason ts).tasks =
      db.tasks := by
  unfold logStatusChange
  split_ifs <;> rfl

theorem put_tasks_same (db : DB) (t : Task) : (db.put t).tasks t.tid = some t := by
  unfold DB.put
  simp

/-! Inversion lemmas: what a successful operation implies. -/

theorem saveExisting_noMatch_inv (db : DB) (t : Task) (now : Nat) (t' : Task)
    (h : db.saveExisting t now = .noMatch t') :
    t.validate = none ∧ t' = { t with updated_at := now } := by
  unfold DB.saveExisting at h
  cases hv : t.validate with
  | some m => rw [hv] at h; cases h
  | none =>
    rw [hv] at h
    by_cases hex : (db.tasks t.tid).isSome
    · simp only [hex, if_true] at h
      cases h
    · simp only [hex, Bool.false_eq_true, if_false] at h
      cases h
      exact ⟨rfl, rfl⟩

theorem update_ok_inv (db : DB) (a : Bool) (now task_id : Nat)
    (st : String) (p : Option Int) (cs em : Option String) (db' : DB) (t' : Task)
    (h : update_task_status db a now task_id st p cs em = .ok (some (db', t'))) :
    ∃ task, db.tasks task_id = some task ∧
      (updatedTask task st p cs em now).validate = none ∧
      t' = { updatedTask task st p cs em now with updated_at := now } := by
  unfold update_task_status at h
  cases hfind : db.tasks task_id with
  | none => rw [hfind] at h; cases h
  | some task =>
    rw [hfind] at h
    dsimp only [] at h
    cases hsv : db.saveExisting (updatedTask task st p cs em now) now with
    | raised m => rw [hsv] at h; cases h
    | noMatch u => rw [hsv] at h; simp at h
    | saved d u =>
      rw [hsv] at h
      simp only [Except.ok.injEq, Option.some.injEq, Prod.mk.injEq] at h
      obtain ⟨hv, hu, -⟩ := saveExisting_saved_inv _ _ _ _ _ hsv
      exact ⟨task, rfl, hv, by rw [← h.2, hu]⟩

theorem fail_ok_inv (db : DB) (a : Bool) (now task_id : Nat) (em : String)
    (db' : DB) (t' : Task)
    (h : fail_task db a now task_id em = .ok (some (db', t'))) :
    ∃ task, db.tasks task_id = some task ∧
      (failedDoc task em now).validate = none ∧
      t' = failedDoc task em now := by
  unfold fail_task at h
  cases hfind : db.tasks task_id with
  | none => rw [hfind] at h; cases h
  | some task =>
    rw [hfind] at h
    dsimp only [] at h
    cases hsv : db.saveExisting (failedDoc task em now) now with
    | raised m => rw [hsv] at h; cases h
    | noMatch u => rw [hsv] at h; simp at h
    | saved d u =>
      rw [hsv] at h
      simp only [Except.ok.injEq, Option.some.injEq, Prod.mk.injEq] at h
      obtain ⟨hv, hu, -⟩ := saveExisting_saved_inv _ _ _ _ _ hsv
      refine ⟨task, rfl, hv, ?_⟩
      rw [← h.2, hu]
      exact set_updated_at_self _ _ rfl

theorem retry_ok_inv (db : DB) (a : Bool) (now task_id : Nat)
    (db' : DB) (t' : Task)
    (h : retry_task db a now task_id = .ok (some (db', t'))) :
    ∃ task, db.tasks task_id = some task ∧ task.status = "failed" ∧
      task.retry_count < task.max_retries ∧
      (retriedDoc task now).validate = none ∧
      t' = retriedDoc task now := by
  unfold retry_task at h
  cases hfind : db.tasks task_id with
  | none => rw [hfind] at h; cases h
  | some task =>
    rw [hfind] at h
    dsimp only [] at h
    by_cases hst : task.status = "failed"
    · simp only [hst, ne_eq, not_true_eq_false, if_false] at h
      by_cases hc : task.retry_count ≥ task.max_retries
      · rw [if_pos hc] at h; cases h
      · rw [if_neg hc] at h
        cases hsv : db.saveExisting (retriedDoc task now) now with
        | raised m => rw [hsv] at h; cases h
        | noMatch u => rw [hsv] at h; simp at h
        | saved d u =>
          rw [hsv] at h
          simp only [Except.ok.injEq, Option.some.injEq, Prod.mk.injEq] at h
          obtain ⟨hv, hu, -⟩ := saveExisting_saved_inv _ _ _ _ _ hsv
          refine ⟨task, rfl, hst, Nat.lt_of_not_le hc, hv, ?_⟩
          rw [← h.2, hu]
          exact set_updated_at_self _ _ rfl
    · rw [if_pos (by exact hst)] at h
      cases h

theorem cancel_ok_inv (db : DB) (a : Bool) (now task_id : Nat)
    (db' : DB) (t' : Task)
    (h : cancel_task db a now task_id = .ok (some (db', t'))) :
    ∃ task, db.tasks task_id = some task ∧
      (task.status = "pending" ∨ task.status = "in_progress") ∧
      (cancelledDoc task now).validate = none ∧
      t' = cancelledDoc task now := by
  unfold cancel_task at h
  cases hfind : db.tasks task_id with
  | none => rw [hfind] at h; cases h
  | some task =>
    rw [hfind] at h
    dsimp only [] at h
    by_cases hst : task.status = "pending" ∨ task.status = "in_progress"
    · rw [if_neg (not_not_intro hst)] at h
      cases hsv : db.saveExisting (cancelledDoc task now) now with
      | raised m => rw [hsv] at h; cases h
      | noMatch u => rw [hsv] at h; simp at h
      | saved d u =>
        rw [hsv] at h
        simp only [Except.ok.injEq, Option.some.injEq, Prod.mk.injEq] at h
        obtain ⟨hv, hu, -⟩ := saveExisting_saved_inv _ _ _ _ _ hsv
        refine ⟨task, rfl, hst, hv, ?_⟩
        rw [← h.2, hu]
        exact set_updated_at_self _ _ rfl
    · rw [if_pos hst] at h
      cases h

theorem complete_ok_inv (db : DB) (a : Bool) (now task_id : Nat) (rd : String)
    (db' : DB) (t' : Task)
    (h : complete_task db a now task_id rd = .ok (some (db', t'))) :
    ∃ task, db.tasks task_id = some task ∧
      (completedDoc task rd now).validate = none ∧
      t' = { completedDoc task rd now with updated_at := now } := by
  unfold complete_task at h
  cases hfind : db.tasks task_id with
  | none => rw [hfind] at h; cases h
  | some task =>
    rw [hfind] at h
    dsimp only [] at h
    cases hsv : db.saveExisting (completedDoc task rd now) now with
    | raised m => rw [hsv] at h; cases h
    | noMatch u =>
      rw [hsv] at h
      simp only [Except.ok.injEq, Option.some.injEq, Prod.mk.injEq] at h
      obtain ⟨hv, hu⟩ := saveExisting_noMatch_inv _ _ _ _ hsv
      exact ⟨task, rfl, hv, by rw [← h.2, hu]⟩
    | saved d u =>
      rw [hsv] at h
      simp only [Except.ok.injEq, Option.some.injEq, Prod.mk.injEq] at h
      obtain ⟨hv, hu, -⟩ := saveExisting_saved_inv _ _ _ _ _ hsv
      exact ⟨task, rfl, hv, by rw [← h.2, hu]⟩

theorem create_ok_inv (db : DB) (a : Bool) (now newId : Nat)
    (session_id : Option Nat) (task_type title : String)
    (description : Option String) (depends_on : List Nat) (db' : DB) (t' : Task)
    (h : create_task db a now newId session_id task_type title description depends_on
          = .ok (some (db', t'))) :
    t'.progress = 0 ∧ t'.status = "pending" := by
  unfold create_task at h
  dsimp only [] at h
  cases hv : (Task.validate
      { tid := newId, session_id := session_id, task_type := task_type,
        title := title, description := description, depends_on := depends_on,
        status := "pending", created_at := now, updated_at := now }) with
  | some m => rw [hv] at h; cases h
  | none =>
    rw [hv] at h
    dsimp only [] at h
    simp only [Except.ok.injEq, Option.some.injEq, Prod.mk.injEq] at h
    constructor <;> rw [← h.2]

/-- The document built by a status update passes model validation whenever
the underlying task's persistent fields are valid, the new status is a
model status, and the progress to be stored is in range (always true when
the target is completed, which forces 100). -/
theorem updatedTask_validate_none (task : Task) (st : String) (p : Option Int)
    (cs em : Option String) (now : Nat)
    (hsid : task.session_id.isSome)
    (htitle : task.title.data.all Char.isWhitespace = false)
    (htype : task.task_type ∈ validTaskTypes)
    (hst : st ∈ validStatuses)
    (hprog : st = "completed" ∨
      (0 ≤ p.getD task.progress ∧ p.getD task.progress ≤ 100)) :
    (updatedTask task st p cs em now).validate = none := by
  apply validate_none_of
  · rw [updatedTask_session_id]; exact hsid
  · rw [updatedTask_title]; exact htitle
  · rw [updatedTask_task_type]; exact htype
  · rw [updatedTask_status]; exact hst
  · rw [updatedTask_progress]
    rcases hprog with hc | ⟨h1, h2⟩
    · rw [if_pos hc]; norm_num
    · split_ifs with hc
      · norm_num
      · exact h1
  · rw [updatedTask_progress]
    rcases hprog with hc | ⟨h1, h2⟩
    · rw [if_pos hc]
    · split_ifs with hc
      · norm_num
      · exact h2

/-! Concrete fixtures used by the counterexamples and witnesses. -/

/-- A well-formed task document: valid session, title and task type. -/
def baseTask : Task :=
  { tid := 1, session_id := some 7, task_type := "research",
    title := "Scrape site", status := "pending" }

/-- A store holding exactly one task (keyed by its id), with an empty
audit-log collection. -/
def store1 (t : Task) : DB :=
  { tasks := fun i => if i = t.tid then some t else none, logs := [] }

/-- A store holding exactly two tasks, with an empty audit-log collection. -/
def store2 (t u : Task) : DB :=
  { tasks := fun i => if i = t.tid then some t else if i = u.tid then some u else none,
    logs := [] }

/-- A task with one dependency, on the task with id 1. -/
def depTask : Task :=
  { baseTask with tid := 2, depends_on := [1] }

/-! Claim theorems. -/

/-- Claim C1, counterexample: the claim requires every status transition
attempted on a cancelled task to be rejected with InvalidTransition and to
leave the stored task unchanged.  In the code, updating a cancelled task to
in_progress succeeds: no error is raised, the returned task and the stored
task both carry status in_progress. -/
theorem C1_counterexample :
    (opTask (update_task_status (store1 { baseTask with status := "cancelled" })
        true 5 1 "in_progress" none none none)).map Task.status = some "in_progress"
    ∧ ((opDB (update_task_status (store1 { baseTask with status := "cancelled" })
        true 5 1 "in_progress" none none none)).bind
          (fun d => d.tasks 1)).map Task.status = some "in_progress"
    ∧ opError (update_task_status (store1 { baseTask with status := "cancelled" })
        true 5 1 "in_progress" none none none) = none := by
  refine ⟨by decide, by decide, by decide⟩

/-- Claim C1 (amended): `update_task_status` enforces no transition table.
For every stored task with valid persistent fields and every requested
status among the six model statuses, the update succeeds regardless of the
task's current status — in particular from `cancelled` — storing the
requested status; the only status check performed is model validation of
the new value (there is no InvalidTransition error in the code). -/
theorem C1_no_transition_table (db : DB) (a : Bool) (now task_id : Nat)
    (task : Task) (st : String) (p : Option Int) (cs em : Option String)
    (hfind : db.tasks task_id = some task) (htid : task.tid = task_id)
    (hsid : task.session_id.isSome)
    (htitle : task.title.data.all Char.isWhitespace = false)
    (htype : task.task_type ∈ validTaskTypes)
    (hst : st ∈ validStatuses)
    (hprog : st = "completed" ∨
      (0 ≤ p.getD task.progress ∧ p.getD task.progress ≤ 100)) :
    (opTask (update_task_status db a now task_id st p cs em)).map Task.status = some st
    ∧ ((opDB (update_task_status db a now task_id st p cs em)).bind
        (fun d => d.tasks task_id)).map Task.status = some st
    ∧ opError (update_task_status db a now task_id st p cs em) = none := by
  have hv : (updatedTask task st p cs em now).validate = none :=
    updatedTask_validate_none task st p cs em now hsid htitle htype hst hprog
  rw [update_eq_ok db a now task_id task st p cs em hfind htid hv]
  refine ⟨?_, ?_, ?_⟩
  · simp [opTask, updatedTask_status]
  · simp only [opDB, Option.bind, logStatusChange_tasks]
    have : (db.put (updatedTask task st p cs em now)).tasks task_id
        = some (updatedTask task st p cs em now) := by
      rw [← htid, ← updatedTask_tid task st p cs em now]
      exact put_tasks_same _ _
    rw [this]
    simp [updatedTask_status]
  · simp [opError]

/-- Witness for C1: the amended theorem applied to a concrete cancelled
task updated to in_progress with a supplied progress. -/
theorem C1_witness :
    (opTask (update_task_status (store1 { baseTask with status := "cancelled" })
        true 6 1 "in_progress" (some 10) none none)).map Task.status = some "in_progress" :=
  (C1_no_transition_table (store1 { baseTask with status := "cancelled" }) true 6 1
    { baseTask with status := "cancelled" } "in_progress" (some 10) none none
    (by decide) (by decide) (by decide) (by decide) (by decide) (by decide)
    (Or.inr (by decide))).1

/-- Claim C4: the spec, the API layer (`valid_statuses` in
`app/api/tasks.py`) and the dashboard all treat waiting_user as a lifecycle
status, but the model's `TaskStatus` has no waiting_user member, so
`Task.validate` rejects it and a status update of an in_progress task to
waiting_user raises `ValueError("Invalid task status")` instead of
succeeding — the code contradicts its own API layer and dashboard. -/
theorem C4_waiting_user_rejected :
    opError (update_task_status (store1 { baseTask with status := "in_progress" })
        true 5 1 "waiting_user" none none none) = some "Invalid task status"
    ∧ opTask (update_task_status (store1 { baseTask with status := "in_progress" })
        true 5 1 "waiting_user" none none none) = none
    ∧ "waiting_user" ∈ apiValidStatuses
    ∧ "waiting_user" ∉ validStatuses
    ∧ calculate_overall_status [{ baseTask with status := "waiting_user" }]
        = "waiting_user" := by
  refine ⟨by decide, by decide, by decide, by decide, by decide⟩

/-- Claim C8: dependency readiness.  A task with empty `depends_on` is
always ready; otherwise it is ready iff every predecessor id, looked up in
the store, exists with status completed; a missing predecessor means not
ready (False, not an error); and for `depends_on = [a]` the task is ready
exactly when a exists and is completed — not while it is pending,
in_progress or failed. -/
theorem C8_dependency_readiness (db : DB) (t : Task) :
    (t.depends_on = [] → dependencies_satisfied db t = true)
    ∧ (dependencies_satisfied db t = true ↔
        ∀ dep ∈ t.depends_on, ∃ d, db.tasks dep = some d ∧ d.status = "completed")
    ∧ (∀ a, t.depends_on = [a] →
        (dependencies_satisfied db t = true ↔
          ∃ d, db.tasks a = some d ∧ d.status = "completed"))
    ∧ (∀ a, t.depends_on = [a] → db.tasks a = none →
        dependencies_satisfied db t = false)
    ∧ (∀ a d, t.depends_on = [a] → db.tasks a = some d → d.status ≠ "completed" →
        dependencies_satisfied db t = false) := by
  have key : ∀ dep : Nat, ((match db.tasks dep with
      | some d => d.status == "completed"
      | none => false) = true) ↔ ∃ d, db.tasks dep = some d ∧ d.status = "completed" := by
    intro dep
    cases hd : db.tasks dep <;> simp
  have main : dependencies_satisfied db t = true ↔
      ∀ dep ∈ t.depends_on, ∃ d, db.tasks dep = some d ∧ d.status = "completed" := by
    unfold dependencies_satisfied
    rw [List.all_eq_true]
    exact forall_congr' fun dep => forall_congr' fun _ => key dep
  refine ⟨?_, main, ?_, ?_, ?_⟩
  · intro he
    unfold dependencies_satisfied
    rw [he]
    rfl
  · intro a ha
    rw [main, ha]
    simp
  · intro a ha hmiss
    rw [← Bool.not_eq_true, main, ha]
    simp [hmiss]
  · intro a d ha hd hst
    rw [← Bool.not_eq_true, main, ha]
    intro hall
    obtain ⟨d', hd', hst'⟩ := hall a (by simp)
    rw [hd] at hd'
    cases hd'
    exact hst hst'

/-- Witness for C8: a task depending on task 1 is not ready while task 1 is
pending and becomes ready once task 1 is completed. -/
theorem C8_witness :
    dependencies_satisfied (store2 baseTask depTask) depTask = false
    ∧ dependencies_satisfied (store2 { baseTask with status := "completed" } depTask)
        depTask = true := by
  constructor
  · exact (C8_dependency_readiness (store2 baseTask depTask) depTask).2.2.2.2 1 baseTask
      (by decide) (by decide) (by decide)
  · exact ((C8_dependency_readiness (store2 { baseTask with status := "completed" } depTask)
      depTask).2.2.1 1 (by decide)).mpr ⟨{ baseTask with status := "completed" }, by decide, rfl⟩

/-- A helper: a filtered list is empty exactly when no element satisfies
the predicate. -/
theorem filter_isEmpty_eq_not_any {α : Type} (l : List α) (p : α → Bool) :
    (l.filter p).isEmpty = !l.any p := by
  induction l with
  | nil => rfl
  | cons x xs ih =>
    cases hp : p x <;> simp [List.filter_cons, hp, ih]

/-- Claim C9: the dashboard's overall status is computed from the session's
task list by the total, deterministic precedence of the spec — any failed
task gives has_failures; else any waiting_user gives waiting_user; else any
in_progress gives in_progress; else any pending gives pending; otherwise
(including a session of only cancelled or stale tasks) completed.  The
bucket-based code derivation agrees with the spec-worded precedence on
every task list. -/
theorem C9_overall_status_spec (ts : List Task) :
    calculate_overall_status ts = spec_overall_status ts := by
  unfold calculate_overall_status spec_overall_status
  simp only [filter_isEmpty_eq_not_any, Bool.not_eq_true', Bool.not_eq_false]

/-- A task mid-flight with partial progress and a lingering failure
message. -/
def sickTask : Task :=
  { baseTask with status := "in_progress", progress := 50, error_message := some "boom" }

/-- Claim C5, counterexample: the claim requires entry to completed to
force progress to 100, set completed_at and clear error_message.  In the
code, the status-update path to completed leaves error_message set, and the
complete-with-result path leaves the stored progress field unchanged (the
source writes a stray `progress_percentage` attribute instead) and also
keeps error_message. -/
theorem C5_counterexample :
    (opTask (update_task_status (store1 sickTask) true 5 1 "completed" none none none)).map
        Task.error_message = some (some "boom")
    ∧ (opTask (complete_task (store1 sickTask) true 5 1 "data")).map Task.progress = some 50
    ∧ ((opDB (complete_task (store1 sickTask) true 5 1 "data")).bind
        (fun d => d.tasks 1)).map Task.progress = some 50
    ∧ (opTask (complete_task (store1 sickTask) true 5 1 "data")).map
        Task.error_message = some (some "boom") := by
  refine ⟨by decide, by decide, by decide, by decide⟩

/-- Claim C5 (amended): on entry to completed via the status update, the
stored task has progress forced to 100 and completed_at set, but
error_message is not cleared (a falsy error_message input leaves the prior
value); the complete-with-result operation sets completed_at and attaches
result_data but leaves the stored progress field and error_message
unchanged. -/
theorem C5_completed_entry (db : DB) (a : Bool) (now task_id : Nat) (task : Task)
    (hfind : db.tasks task_id = some task) (htid : task.tid = task_id)
    (hsid : task.session_id.isSome)
    (htitle : task.title.data.all Char.isWhitespace = false)
    (htype : task.task_type ∈ validTaskTypes)
    (hp0 : 0 ≤ task.progress) (hp1 : task.progress ≤ 100) :
    (∀ p cs em,
      opTask (update_task_status db a now task_id "completed" p cs em)
          = some (updatedTask task "completed" p cs em now)
      ∧ (updatedTask task "completed" p cs em now).progress = 100
      ∧ (updatedTask task "completed" p cs em now).completed_at = some now
      ∧ (strTruthy em = false →
          (updatedTask task "completed" p cs em now).error_message = task.error_message))
    ∧ (∀ rd,
      opTask (complete_task db a now task_id rd)
          = some { completedDoc task rd now with updated_at := now }
      ∧ ({ completedDoc task rd now with updated_at := now } : Task).progress
          = task.progress
      ∧ ({ completedDoc task rd now with updated_at := now } : Task).completed_at
          = some now
      ∧ ({ completedDoc task rd now with updated_at := now } : Task).error_message
          = task.error_message
      ∧ ({ completedDoc task rd now with updated_at := now } : Task).result_data
          = some rd) := by
  constructor
  · intro p cs em
    have hv : (updatedTask task "completed" p cs em now).validate = none := by
      apply validate_none_of
      · rw [updatedTask_session_id]; exact hsid
      · rw [updatedTask_title]; exact htitle
      · rw [updatedTask_task_type]; exact htype
      · rw [updatedTask_status]; decide
      · rw [updatedTask_progress, if_pos rfl]; norm_num
      · rw [updatedTask_progress, if_pos rfl]
    refine ⟨?_, ?_, ?_, ?_⟩
    · rw [update_eq_ok db a now task_id task "completed" p cs em hfind htid hv]
      rfl
    · rw [updatedTask_progress, if_pos rfl]
    · rw [updatedTask_completed_at, if_pos rfl]
    · intro hem
      rw [updatedTask_error_message, hem]
      rfl
  · intro rd
    have hv : (completedDoc task rd now).validate = none := by
      apply validate_none_of
      · exact hsid
      · exact htitle
      · exact htype
      · show "completed" ∈ validStatuses
        decide
      · exact hp0
      · exact hp1
    refine ⟨?_, rfl, rfl, rfl, rfl⟩
    rw [complete_eq_ok db a now task_id task rd hfind htid hv]
    rfl

/-- Witness for C5: the amended theorem at a concrete in_progress task with
progress 50 and a lingering error message. -/
theorem C5_witness :
    opTask (complete_task (store1 sickTask) true 6 1 "payload")
        = some { completedDoc sickTask "payload" 6 with updated_at := 6 }
    ∧ ({ completedDoc sickTask "payload" 6 with updated_at := 6 } : Task).error_message
        = sickTask.error_message := by
  have h := (C5_completed_entry (store1 sickTask) true 6 1 sickTask (by decide) (by decide)
      (by decide) (by decide) (by decide) (by decide) (by decide)).2 "payload"
  exact ⟨h.1, h.2.2.2.1⟩

/-- Claim C6, counterexample: the claim requires a transition to failed
with an empty error_message to be rejected with ValidationError.  In the
code, `fail_task` performs no emptiness check: failing a task with the
empty string succeeds and stores an empty error_message. -/
theorem C6_counterexample :
    opError (fail_task (store1 { baseTask with status := "in_progress" }) true 5 1 "") = none
    ∧ (opTask (fail_task (store1 { baseTask with status := "in_progress" })
        true 5 1 "")).map Task.status = some "failed"
    ∧ ((opDB (fail_task (store1 { baseTask with status := "in_progress" })
        true 5 1 "")).bind (fun d => d.tasks 1)).map Task.error_message
        = some (some "") := by
  refine ⟨by decide, by decide, by decide⟩

/-- Claim C6 (amended): `fail_task` stores the supplied error_message
verbatim with no non-emptiness requirement (there is no ValidationError);
it sets status to failed and leaves completed_at unchanged (so unset
whenever it was unset before).  In particular a successful transition to
failed can leave error_message empty. -/
theorem C6_fail_no_validation (db : DB) (a : Bool) (now task_id : Nat)
    (task : Task) (em : String)
    (hfind : db.tasks task_id = some task) (htid : task.tid = task_id)
    (hsid : task.session_id.isSome)
    (htitle : task.title.data.all Char.isWhitespace = false)
    (htype : task.task_type ∈ validTaskTypes)
    (hp0 : 0 ≤ task.progress) (hp1 : task.progress ≤ 100) :
    opTask (fail_task db a now task_id em) = some (failedDoc task em now)
    ∧ (failedDoc task em now).status = "failed"
    ∧ (failedDoc task em now).error_message = some em
    ∧ (failedDoc task em now).completed_at = task.completed_at
    ∧ opError (fail_task db a now task_id em) = none := by
  have hv : (failedDoc task em now).validate = none := by
    apply validate_none_of
    · exact hsid
    · exact htitle
    · exact htype
    · show "failed" ∈ validStatuses
      decide
    · exact hp0
    · exact hp1
  rw [fail_eq_ok db a now task_id task em hfind htid hv]
  exact ⟨rfl, rfl, rfl, rfl, rfl⟩

/-- Witness for C6: the amended theorem at a concrete in_progress task and
a non-empty message. -/
theorem C6_witness :
    opTask (fail_task (store1 { baseTask with status := "in_progress" }) true 6 1 "disk full")
      = some (failedDoc { baseTask with status := "in_progress" } "disk full" 6) :=
  (C6_fail_no_validation (store1 { baseTask with status := "in_progress" }) true 6 1
    { baseTask with status := "in_progress" } "disk full" (by decide) (by decide)
    (by decide) (by decide) (by decide) (by decide) (by decide)).1

/-- Claim C10, counterexample: the claim asserts a supplied progress of 0
(or any supplied progress) is applied.  When the requested status is
completed, the code overwrites the supplied value with 100, so an update to
completed with progress 0 stores 100, not 0. -/
theorem C10_counterexample :
    (opTask (update_task_status (store1 sickTask) true 5 1 "completed"
        (some 0) none none)).map Task.progress = some 100
    ∧ opError (update_task_status (store1 sickTask) true 5 1 "completed"
        (some 0) none none) = none := by
  refine ⟨by decide, by decide⟩

/-- Claim C10 (amended): in a successful status update, a falsy
current_step or error_message input (None or the empty string) leaves the
stored field unchanged; a supplied progress (tested against None, not
truthiness — including 0) is applied whenever the new status is not
completed; when the new status is completed the stored progress is 100
regardless of the supplied value. -/
theorem C10_falsy_inputs (db : DB) (a : Bool) (now task_id : Nat)
    (st : String) (p : Option Int) (cs em : Option String) (db' : DB) (t' : Task)
    (h : update_task_status db a now task_id st p cs em = .ok (some (db', t')))
    (task : Task) (hfind : db.tasks task_id = some task) :
    ((cs = none ∨ cs = some "") → t'.current_step = task.current_step)
    ∧ ((em = none ∨ em = some "") → t'.error_message = task.error_message)
    ∧ (∀ v, p = some v → st ≠ "completed" → t'.progress = v)
    ∧ (p = some 0 → st ≠ "completed" → t'.progress = 0)
    ∧ (st = "completed" → t'.progress = 100) := by
  obtain ⟨task2, hfind2, hv, ht'⟩ := update_ok_inv db a now task_id st p cs em db' t' h
  rw [hfind] at hfind2
  injection hfind2 with he
  subst he
  subst ht'
  refine ⟨?_, ?_, ?_, ?_, ?_⟩
  · intro hcs
    show (updatedTask task st p cs em now).current_step = task.current_step
    rw [updatedTask_current_step]
    rcases hcs with h1 | h1 <;> subst h1 <;> rfl
  · intro hem
    show (updatedTask task st p cs em now).error_message = task.error_message
    rw [updatedTask_error_message]
    rcases hem with h1 | h1 <;> subst h1 <;> rfl
  · intro v hp hst
    show (updatedTask task st p cs em now).progress = v
    rw [updatedTask_progress, if_neg hst, hp]
    rfl
  · intro hp hst
    show (updatedTask task st p cs em now).progress = 0
    rw [updatedTask_progress, if_neg hst, hp]
    rfl
  · intro hst
    show (updatedTask task st p cs em now).progress = 100
    rw [updatedTask_progress, if_pos hst]

/-- Witness for C10: a concrete successful update supplying empty strings
and progress 0 to a non-completed status keeps current_step and applies the
0. -/
theorem C10_witness :
    (updatedTask baseTask "in_progress" (some 0) (some "") (some "") 5).current_step
        = baseTask.current_step
    ∧ (updatedTask baseTask "in_progress" (some 0) (some "") (some "") 5).progress = 0 := by
  have h := update_eq_ok (store1 baseTask) true 5 1 baseTask "in_progress" (some 0)
      (some "") (some "") (by decide) (by decide) (by decide)
  have hall := C10_falsy_inputs (store1 baseTask) true 5 1 "in_progress" (some 0)
      (some "") (some "") _ _ h baseTask (by decide)
  exact ⟨hall.1 (Or.inr rfl), hall.2.2.1 0 rfl (by decide)⟩

/-- Claim C3, counterexample: the claim quotes the InvalidState message as
"only failed tasks can be retried" and the audit reason as
"retry attempt N of M"; the code produces the capitalised strings
"Only failed tasks can be retried" and "Retry attempt N of M". -/
theorem C3_counterexample :
    opError (retry_task (store1 { baseTask with status := "in_progress" }) true 5 1)
        = some "Only failed tasks can be retried"
    ∧ ("Only failed tasks can be retried" : String) ≠ "only failed tasks can be retried"
    ∧ (opLogs (retry_task (store1 { baseTask with status := "failed" }) true 5 1)).map
        (fun l => l.map LogEntry.change_reason) = some [some "Retry attempt 1 of 3"]
    ∧ ("Retry attempt 1 of 3" : String) ≠ "retry attempt 1 of 3" := by
  refine ⟨by decide, by decide, by decide, by decide⟩

/-- Claim C3 (amended): retry raises a distinct ValueError for each failed
precondition, in source order — unknown task; status not exactly failed
(message "Only failed tasks can be retried", capitalised); retry_count at
or above max_retries ("Maximum retry attempts exceeded", so the attempt
after the limit always fails).  On success it increments retry_count (which
therefore never exceeds max_retries), clears error_message, resets progress
to 0, sets the queued-for-retry marker, transitions to pending, and with a
working audit log appends exactly one entry with reason
"Retry attempt N of M" (capitalised). -/
theorem C3_retry_behaviour (db : DB) (a : Bool) (now task_id : Nat) :
    (db.tasks task_id = none →
      retry_task db a now task_id
        = .error ("Task " ++ toString task_id ++ " not found"))
    ∧ (∀ task, db.tasks task_id = some task → task.status ≠ "failed" →
        retry_task db a now task_id = .error "Only failed tasks can be retried")
    ∧ (∀ task, db.tasks task_id = some task → task.status = "failed" →
        task.retry_count ≥ task.max_retries →
        retry_task db a now task_id = .error "Maximum retry attempts exceeded")
    ∧ (∀ task, db.tasks task_id = some task → task.tid = task_id →
        task.status = "failed" → task.retry_count < task.max_retries →
        task.session_id.isSome →
        task.title.data.all Char.isWhitespace = false →
        task.task_type ∈ validTaskTypes →
        opTask (retry_task db a now task_id) = some (retriedDoc task now)
        ∧ (retriedDoc task now).retry_count = task.retry_count + 1
        ∧ (retriedDoc task now).retry_count ≤ task.max_retries
        ∧ (retriedDoc task now).error_message = none
        ∧ (retriedDoc task now).progress = 0
        ∧ (retriedDoc task now).current_step = "Task queued for retry"
        ∧ (retriedDoc task now).status = "pending"
        ∧ opLogs (retry_task db true now task_id) =
            some (db.logs ++ [{ task_id := task_id, old_status := some "failed",
                                new_status := "pending", changed_by := "system",
                                change_reason := some ("Retry attempt "
                                  ++ toString (task.retry_count + 1) ++ " of "
                                  ++ toString task.max_retries),
                                timestamp := now }])) := by
  refine ⟨?_, ?_, ?_, ?_⟩
  · intro hnone
    unfold retry_task
    rw [hnone]
  · intro task hfind hst
    unfold retry_task
    rw [hfind]
    dsimp only []
    rw [if_pos hst]
  · intro task hfind hst hge
    unfold retry_task
    rw [hfind]
    dsimp only []
    rw [if_neg (not_not_intro hst), if_pos hge]
  · intro task hfind htid hst hlt hsid htitle htype
    have hv : (retriedDoc task now).validate = none := by
      apply validate_none_of
      · exact hsid
      · exact htitle
      · exact htype
      · show "pending" ∈ validStatuses
        decide
      · show (0 : Int) ≤ 0
        decide
      · show (0 : Int) ≤ 100
        decide
    refine ⟨?_, rfl, hlt, rfl, rfl, rfl, rfl, ?_⟩
    · rw [retry_eq_ok db a now task_id task hfind htid hst hlt hv]
      rfl
    · rw [retry_eq_ok db true now task_id task hfind htid hst hlt hv]
      show some (logStatusChange _ true _ _ _ _ _ _).logs = _
      rw [logStatusChange_logs, if_pos rfl, hst]
      rfl

/-- Witness for C3: the amended theorem at a concrete failed task with
retry_count 0 and max_retries 3. -/
theorem C3_witness :
    opTask (retry_task (store1 { baseTask with
        status := "failed", error_message := some "x", progress := 30 }) true 5 1)
      = some (retriedDoc { baseTask with
          status := "failed", error_message := some "x", progress := 30 } 5) :=
  ((C3_retry_behaviour (store1 { baseTask with
      status := "failed", error_message := some "x", progress := 30 }) true 5 1).2.2.2
    { baseTask with status := "failed", error_message := some "x", progress := 30 }
    (by decide) (by decide) rfl (by decide) (by decide) (by decide) (by decide)).1

/-- Claim C2, counterexample: (a) the complete-with-result operation logs
the already-overwritten status "completed" as old_status instead of the
task's prior status in_progress; (b) when the audit write fails, the
status change is still persisted, no audit entry is written, and no error
is raised — there is no rollback and no StorageError. -/
theorem C2_counterexample :
    (opLogs (complete_task (store1 { baseTask with status := "in_progress" })
        true 5 1 "data")).map (fun l => l.map LogEntry.old_status)
      = some [some "completed"]
    ∧ (opTask (update_task_status (store1 baseTask) false 5 1 "in_progress"
        none none none)).map Task.status = some "in_progress"
    ∧ ((opDB (update_task_status (store1 baseTask) false 5 1 "in_progress"
        none none none)).bind (fun d => d.tasks 1)).map Task.status
      = some "in_progress"
    ∧ opLogs (update_task_status (store1 baseTask) false 5 1 "in_progress"
        none none none) = some []
    ∧ opError (update_task_status (store1 baseTask) false 5 1 "in_progress"
        none none none) = none := by
  refine ⟨by decide, by decide, by decide, by decide, by decide⟩

/-- Claim C2 (amended): each accepted transition attempts exactly one audit
entry after the task save.  The status update, fail, cancel and retry
record the task's prior status as old_status and the target as new_status;
the complete-with-result operation records "completed" as old_status
because the status field is overwritten before logging.  A failing audit
write is swallowed: the operation still succeeds, the status change
persists with no audit entry, nothing is rolled back and no StorageError
is raised. -/
theorem C2_audit_behaviour (db : DB) (now task_id : Nat) (task : Task)
    (hfind : db.tasks task_id = some task) (htid : task.tid = task_id)
    (hsid : task.session_id.isSome)
    (htitle : task.title.data.all Char.isWhitespace = false)
    (htype : task.task_type ∈ validTaskTypes)
    (hp0 : 0 ≤ task.progress) (hp1 : task.progress ≤ 100) :
    (∀ st p cs em, st ∈ validStatuses →
      (st = "completed" ∨ (0 ≤ p.getD task.progress ∧ p.getD task.progress ≤ 100)) →
      opLogs (update_task_status db true now task_id st p cs em) =
        some (db.logs ++ [{ task_id := task_id, old_status := some task.status,
                            new_status := st, changed_by := "system",
                            change_reason := none, timestamp := now }])
      ∧ opLogs (update_task_status db false now task_id st p cs em) = some db.logs
      ∧ ((opDB (update_task_status db false now task_id st p cs em)).bind
          (fun d => d.tasks task_id)).map Task.status = some st
      ∧ opError (update_task_status db false now task_id st p cs em) = none)
    ∧ (∀ em, opLogs (fail_task db true now task_id em) =
        some (db.logs ++ [{ task_id := task_id, old_status := some task.status,
                            new_status := "failed", changed_by := "system",
                            change_reason := some em, timestamp := now }]))
    ∧ (task.status = "pending" ∨ task.status = "in_progress" →
        opLogs (cancel_task db true now task_id) =
          some (db.logs ++ [{ task_id := task_id, old_status := some task.status,
                              new_status := "cancelled", changed_by := "system",
                              change_reason := some "Task cancelled by user",
                              timestamp := now }]))
    ∧ (task.status = "failed" → task.retry_count < task.max_retries →
        opLogs (retry_task db true now task_id) =
          some (db.logs ++ [{ task_id := task_id, old_status := some task.status,
                              new_status := "pending", changed_by := "system",
                              change_reason := some ("Retry attempt "
                                ++ toString (task.retry_count + 1) ++ " of "
                                ++ toString task.max_retries),
                              timestamp := now }]))
    ∧ (∀ rd, opLogs (complete_task db true now task_id rd) =
        some (db.logs ++ [{ task_id := task_id, old_status := some "completed",
                            new_status := "completed", changed_by := "system",
                            change_reason := none, timestamp := now }])) := by
  refine ⟨?_, ?_, ?_, ?_, ?_⟩
  · intro st p cs em hst hprog
    have hv : (updatedTask task st p cs em now).validate = none :=
      updatedTask_validate_none task st p cs em now hsid htitle htype hst hprog
    refine ⟨?_, ?_, ?_, ?_⟩
    · rw [update_eq_ok db true now task_id task st p cs em hfind htid hv]
      show some (logStatusChange _ true _ _ _ _ _ _).logs = _
      rw [logStatusChange_logs, if_pos rfl]
      rfl
    · rw [update_eq_ok db false now task_id task st p cs em hfind htid hv]
      show some (logStatusChange _ false _ _ _ _ _ _).logs = _
      rw [logStatusChange_logs, if_neg Bool.false_ne_true]
      rfl
    · rw [update_eq_ok db false now task_id task st p cs em hfind htid hv]
      simp only [opDB, Option.bind, logStatusChange_tasks]
      have hput : (db.put (updatedTask task st p cs em now)).tasks task_id
          = some (updatedTask task st p cs em now) := by
        rw [← htid, ← updatedTask_tid task st p cs em now]
        exact put_tasks_same _ _
      rw [hput]
      simp [updatedTask_status]
    · rw [update_eq_ok db false now task_id task st p cs em hfind htid hv]
      rfl
  · intro em
    have hv : (failedDoc task em now).validate = none := by
      apply validate_none_of
      · exact hsid
      · exact htitle
      · exact htype
      · show "failed" ∈ validStatuses
        decide
      · exact hp0
      · exact hp1
    rw [fail_eq_ok db true now task_id task em hfind htid hv]
    show some (logStatusChange _ true _ _ _ _ _ _).logs = _
    rw [logStatusChange_logs, if_pos rfl]
    rfl
  · intro hst
    have hv : (cancelledDoc task now).validate = none := by
      apply validate_none_of
      · exact hsid
      · exact htitle
      · exact htype
      · show "cancelled" ∈ validStatuses
        decide
      · exact hp0
      · exact hp1
    rw [cancel_eq_ok db true now task_id task hfind htid hst hv]
    show some (logStatusChange _ true _ _ _ _ _ _).logs = _
    rw [logStatusChange_logs, if_pos rfl]
    rfl
  · intro hst hlt
    have hv : (retriedDoc task now).validate = none := by
      apply validate_none_of
      · exact hsid
      · exact htitle
      · exact htype
      · show "pending" ∈ validStatuses
        decide
      · show (0 : Int) ≤ 0
        decide
      · show (0 : Int) ≤ 100
        decide
    rw [retry_eq_ok db true now task_id task hfind htid hst hlt hv]
    show some (logStatusChange _ true _ _ _ _ _ _).logs = _
    rw [logStatusChange_logs, if_pos rfl]
    rfl
  · intro rd
    have hv : (completedDoc task rd now).validate = none := by
      apply validate_none_of
      · exact hsid
      · exact htitle
      · exact htype
      · show "completed" ∈ validStatuses
        decide
      · exact hp0
      · exact hp1
    rw [complete_eq_ok db true now task_id task rd hfind htid hv]
    show some (logStatusChange _ true _ _ _ _ _ _).logs = _
    rw [logStatusChange_logs, if_pos rfl]
    rfl

/-- Witness for C2: the amended theorem's fail conjunct at a concrete
in_progress task — one audit entry recording the prior status and the
message as reason. -/
theorem C2_witness :
    opLogs (fail_task (store1 sickTask) true 7 1 "net down") =
      some [{ task_id := 1, old_status := some "in_progress",
              new_status := "failed", changed_by := "system",
              change_reason := some "net down", timestamp := 7 }] := by
  have h := (C2_audit_behaviour (store1 sickTask) 7 1 sickTask (by decide) (by decide)
      (by decide) (by decide) (by decide) (by decide) (by decide)).2.1 "net down"
  exact h

/-- Claim C7, counterexample: an update to completed supplying the
out-of-range progress 150 succeeds: the supplied value is overwritten with
100 before validation, so an out-of-range progress input does not always
prevent a successful store. -/
theorem C7_counterexample :
    opError (update_task_status (store1 baseTask) true 5 1 "completed"
        (some 150) none none) = none
    ∧ (opTask (update_task_status (store1 baseTask) true 5 1 "completed"
        (some 150) none none)).map Task.progress = some 100
    ∧ ¬ ((150 : Int) ≤ 100) := by
  refine ⟨by decide, by decide, by decide⟩

/-- Claim C7 (amended): after every successful operation (create, status
update, retry, cancel, fail, complete) the returned task's progress lies in
[0, 100], because model validation runs on every save; and an update
supplying an out-of-range progress never yields a successfully stored task
— except when the requested status is completed, where the supplied value
is overwritten with 100 before validation and the update succeeds. -/
theorem C7_progress_invariant :
    (∀ db a now id st p cs em db' t',
      update_task_status db a now id st p cs em = .ok (some (db', t')) →
      0 ≤ t'.progress ∧ t'.progress ≤ 100)
    ∧ (∀ db a now id em db' t',
      fail_task db a now id em = .ok (some (db', t')) →
      0 ≤ t'.progress ∧ t'.progress ≤ 100)
    ∧ (∀ db a now id db' t',
      retry_task db a now id = .ok (some (db', t')) →
      0 ≤ t'.progress ∧ t'.progress ≤ 100)
    ∧ (∀ db a now id db' t',
      cancel_task db a now id = .ok (some (db', t')) →
      0 ≤ t'.progress ∧ t'.progress ≤ 100)
    ∧ (∀ db a now id rd db' t',
      complete_task db a now id rd = .ok (some (db', t')) →
      0 ≤ t'.progress ∧ t'.progress ≤ 100)
    ∧ (∀ db a now newId sid tt ttl dsc dep db' t',
      create_task db a now newId sid tt ttl dsc dep = .ok (some (db', t')) →
      0 ≤ t'.progress ∧ t'.progress ≤ 100)
    ∧ (∀ db a now id st (v : Int) cs em, ¬ (0 ≤ v ∧ v ≤ 100) → st ≠ "completed" →
      opTask (update_task_status db a now id st (some v) cs em) = none) := by
  refine ⟨?_, ?_, ?_, ?_, ?_, ?_, ?_⟩
  · intro db a now id st p cs em db' t' h
    obtain ⟨task, -, hv, ht'⟩ := update_ok_inv db a now id st p cs em db' t' h
    subst ht'
    exact validate_none_progress _ hv
  · intro db a now id em db' t' h
    obtain ⟨task, -, hv, ht'⟩ := fail_ok_inv db a now id em db' t' h
    subst ht'
    exact validate_none_progress _ hv
  · intro db a now id db' t' h
    obtain ⟨task, -, -, -, hv, ht'⟩ := retry_ok_inv db a now id db' t' h
    subst ht'
    exact validate_none_progress _ hv
  · intro db a now id db' t' h
    obtain ⟨task, -, -, hv, ht'⟩ := cancel_ok_inv db a now id db' t' h
    subst ht'
    exact validate_none_progress _ hv
  · intro db a now id rd db' t' h
    obtain ⟨task, -, hv, ht'⟩ := complete_ok_inv db a now id rd db' t' h
    subst ht'
    exact validate_none_progress _ hv
  · intro db a now newId sid tt ttl dsc dep db' t' h
    obtain ⟨hp, -⟩ := create_ok_inv db a now newId sid tt ttl dsc dep db' t' h
    rw [hp]
    norm_num
  · intro db a now id st v cs em hbad hst
    unfold update_task_status
    cases hfind : db.tasks id with
    | none => rfl
    | some task =>
      dsimp only []
      cases hsv : db.saveExisting (updatedTask task st (some v) cs em now) now with
      | raised m => rfl
      | noMatch u => rfl
      | saved d u =>
        exfalso
        obtain ⟨hv, -, -⟩ := saveExisting_saved_inv _ _ _ _ _ hsv
        have hb := validate_none_progress _ hv
        rw [updatedTask_progress, if_neg hst] at hb
        exact hbad hb

/-- Witness for C7: the amended theorem's last conjunct at a concrete
out-of-range update to a non-completed status — no task is stored. -/
theorem C7_witness :
    opTask (update_task_status (store1 baseTask) true 5 1 "pending"
        (some 150) none none) = none :=
  C7_progress_invariant.2.2.2.2.2.2 (store1 baseTask) true 5 1 "pending" 150 none none
    (by decide) (by decide)

end App
